import Mathlib

/-!
Verification development for the edge-client core of a zero-trust SDK:
the controller HTTP client (ziti_ctrl.c, given as src/unnamed/part_000)
and the posture engine (src/library/posture.c).

The C code is shallowly embedded: C structs become Lean structures,
nullable pointers become Option, the model_map container becomes an
association list in insertion order, C int becomes Int where its range
matters and Nat for counters that the code keeps unsigned, and the
event-driven callback flow becomes explicit step functions producing
traces of events.
-/

/-- Internal error kinds of the SDK (the ZITI_* codes used in the two
translation units; ZITI_WTF is the "unspecified" kind of the spec). -/
inductive ZitiErr where
  | OK
  | NOT_FOUND
  | CONTROLLER_UNAVAILABLE
  | GATEWAY_UNAVAILABLE
  | AUTHENTICATION_FAILED
  | INVALID_POSTURE
  | MFA_INVALID_TOKEN
  | MFA_EXISTS
  | MFA_NOT_ENROLLED
  | JWT_INVALID
  | NOT_AUTHORIZED
  | WTF
  | INVALID_STATE
  | DISABLED
  | INVALID_CONFIG
deriving DecidableEq, Repr

/-- Posture-check type constants from ziti_ctrl.c. -/
def PC_DOMAIN_TYPE : String := "DOMAIN"

def PC_OS_TYPE : String := "OS"

def PC_PROCESS_TYPE : String := "PROCESS"

def PC_PROCESS_MULTI_TYPE : String := "PROCESS_MULTI"

def PC_MAC_TYPE : String := "MAC"

def PC_ENDPOINT_STATE_TYPE : String := "ENDPOINT_STATE"

def ERROR_CODE_UNAUTHORIZED : String := "UNAUTHORIZED"

def ERROR_MSG_NO_API_SESSION_TOKEN : String := "no api session token set for ziti_controller"

/-- code_to_error from ziti_ctrl.c: translate the server error-code string
of a response envelope to an internal error kind.  A NULL code pointer is
modelled as none.  The CODE_MAP if-chain is transcribed in source order. -/
def code_to_error (code : Option String) : ZitiErr :=
  match code with
  | none => .OK
  | some c =>
    if c = "NOT_FOUND" then .NOT_FOUND
    else if c = "CONTROLLER_UNAVAILABLE" then .CONTROLLER_UNAVAILABLE
    else if c = "NO_ROUTABLE_INGRESS_NODES" then .GATEWAY_UNAVAILABLE
    else if c = "NO_EDGE_ROUTERS_AVAILABLE" then .GATEWAY_UNAVAILABLE
    else if c = "INVALID_AUTHENTICATION" then .AUTHENTICATION_FAILED
    else if c = "REQUIRES_CERT_AUTH" then .AUTHENTICATION_FAILED
    else if c = "UNAUTHORIZED" then .AUTHENTICATION_FAILED
    else if c = "INVALID_POSTURE" then .INVALID_POSTURE
    else if c = "INVALID_AUTH" then .AUTHENTICATION_FAILED
    else if c = "MFA_INVALID_TOKEN" then .MFA_INVALID_TOKEN
    else if c = "MFA_EXISTS" then .MFA_EXISTS
    else if c = "MFA_NOT_ENROLLED" then .MFA_NOT_ENROLLED
    else if c = "INVALID_ENROLLMENT_TOKEN" then .JWT_INVALID
    else if c = "COULD_NOT_VALIDATE" then .NOT_AUTHORIZED
    else .WTF

/-- The fourteen declared keys of the CODE_MAP table, in source order. -/
def ctrl_error_codes : List String :=
  ["NOT_FOUND", "CONTROLLER_UNAVAILABLE", "NO_ROUTABLE_INGRESS_NODES",
   "NO_EDGE_ROUTERS_AVAILABLE", "INVALID_AUTHENTICATION", "REQUIRES_CERT_AUTH",
   "UNAUTHORIZED", "INVALID_POSTURE", "INVALID_AUTH", "MFA_INVALID_TOKEN",
   "MFA_EXISTS", "MFA_NOT_ENROLLED", "INVALID_ENROLLMENT_TOKEN", "COULD_NOT_VALIDATE"]

/-- The public controller operations of ziti_ctrl.c.  Arguments that only
shape the request body or extra headers (csr, name, login config types, MFA
bodies) are omitted because they do not affect whether a request is issued. -/
inductive CtrlOp where
  | get_version
  | login
  | current_identity
  | current_api_session
  | logout
  | get_services_update
  | get_services
  | current_edge_routers
  | get_service (service_name : String)
  | get_session (session_id : String)
  | create_session (service_id : String)
  | get_sessions
  | enroll (method : String) (token : Option String)
  | get_well_known_certs
  | pr_post
  | pr_post_bulk
  | login_mfa
  | post_mfa
  | get_mfa
  | delete_mfa
  | post_mfa_verify
  | get_mfa_recovery_codes
  | post_mfa_recovery_codes
  | extend_cert_authenticator (authenticatorId : String)
  | verify_extend_cert_authenticator (authenticatorId : String)
  | create_api_certificate
deriving DecidableEq, Repr

/-- Synchronous outcome of invoking a controller operation.
syncError means: the user callback was invoked exactly once, synchronously,
with the given error, and no HTTP request was started.
httpRequest means: an HTTP request with the given method and path was
started (for paged operations the path is the base path handed to
ctrl_paging_req, which appends limit and offset query parameters). -/
inductive OpResult where
  | syncError (err : ZitiErr) (code : String) (message : String)
  | httpRequest (method : String) (path : String)
deriving DecidableEq, Repr

/-- verify_api_session from ziti_ctrl.c: when the API session token is
absent it fires the callback once with the synthetic AUTH error and makes
the operation return early; otherwise the operation proceeds. -/
def verify_api_session (token : Option String) : Option OpResult :=
  if token = none then
    some (.syncError .AUTHENTICATION_FAILED ERROR_CODE_UNAUTHORIZED ERROR_MSG_NO_API_SESSION_TOKEN)
  else
    none

/-- Invocation of each ziti_ctrl_* operation, transcribed from ziti_ctrl.c:
which operations guard on verify_api_session and which HTTP method and path
each one uses. -/
def ctrl_invoke (token : Option String) : CtrlOp → OpResult
  | .get_version => .httpRequest "GET" "/version"
  | .login => .httpRequest "POST" "/authenticate?method=cert"
  | .current_identity =>
    match verify_api_session token with
    | some r => r
    | none => .httpRequest "GET" "/current-identity"
  | .current_api_session =>
    match verify_api_session token with
    | some r => r
    | none => .httpRequest "GET" "/current-api-session"
  | .logout =>
    match verify_api_session token with
    | some r => r
    | none => .httpRequest "DELETE" "/current-api-session"
  | .get_services_update =>
    match verify_api_session token with
    | some r => r
    | none => .httpRequest "GET" "/current-api-session/service-updates"
  | .get_services =>
    match verify_api_session token with
    | some r => r
    | none => .httpRequest "GET" "/services"
  | .current_edge_routers =>
    match verify_api_session token with
    | some r => r
    | none => .httpRequest "GET" "/current-identity/edge-routers"
  | .get_service name =>
    match verify_api_session token with
    | some r => r
    | none => .httpRequest "GET" ("/services?filter=name=\"" ++ name ++ "\"")
  | .get_session sid =>
    match verify_api_session token with
    | some r => r
    | none => .httpRequest "GET" ("/sessions/" ++ sid)
  | .create_session _ =>
    match verify_api_session token with
    | some r => r
    | none => .httpRequest "POST" "/sessions"
  | .get_sessions =>
    match verify_api_session token with
    | some r => r
    | none => .httpRequest "GET" "/sessions"
  | .enroll method tok =>
    .httpRequest "POST"
      ("/enroll?method=" ++ method ++ (match tok with | some t => "&token=" ++ t | none => ""))
  | .get_well_known_certs => .httpRequest "GET" "/.well-known/est/cacerts"
  | .pr_post =>
    match verify_api_session token with
    | some r => r
    | none => .httpRequest "POST" "/posture-response"
  | .pr_post_bulk =>
    match verify_api_session token with
    | some r => r
    | none => .httpRequest "POST" "/posture-response-bulk"
  | .login_mfa =>
    match verify_api_session token with
    | some r => r
    | none => .httpRequest "POST" "/authenticate/mfa"
  | .post_mfa =>
    match verify_api_session token with
    | some r => r
    | none => .httpRequest "POST" "/current-identity/mfa"
  | .get_mfa =>
    match verify_api_session token with
    | some r => r
    | none => .httpRequest "GET" "/current-identity/mfa"
  | .delete_mfa =>
    match verify_api_session token with
    | some r => r
    | none => .httpRequest "DELETE" "/current-identity/mfa"
  | .post_mfa_verify =>
    match verify_api_session token with
    | some r => r
    | none => .httpRequest "POST" "/current-identity/mfa/verify"
  | .get_mfa_recovery_codes =>
    match verify_api_session token with
    | some r => r
    | none => .httpRequest "GET" "/current-identity/mfa/recovery-codes"
  | .post_mfa_recovery_codes =>
    match verify_api_session token with
    | some r => r
    | none => .httpRequest "POST" "/current-identity/mfa/recovery-codes"
  | .extend_cert_authenticator aid =>
    match verify_api_session token with
    | some r => r
    | none => .httpRequest "POST" ("/current-identity/authenticators/" ++ aid ++ "/extend")
  | .verify_extend_cert_authenticator aid =>
    match verify_api_session token with
    | some r => r
    | none => .httpRequest "POST" ("/current-identity/authenticators/" ++ aid ++ "/extend-verify")
  | .create_api_certificate =>
    match verify_api_session token with
    | some r => r
    | none => .httpRequest "POST" "/current-api-session/certificates"

/-- The pre-session operations named by the claim: version, login, enroll,
well-known certs.  These are exactly the operations that do not call
verify_api_session in ziti_ctrl.c. -/
def pre_session_op : CtrlOp → Bool
  | .get_version => true
  | .login => true
  | .enroll _ _ => true
  | .get_well_known_certs => true
  | _ => false

/-- Extract the message of a synchronous error outcome. -/
def op_error_message : OpResult → Option String
  | .syncError _ _ m => some m
  | .httpRequest _ _ => none

/-- libuv error codes used by the translation unit (Linux values). -/
def UV_ECANCELED : Int := -125

def UV_EOF : Int := -4095

def DEFAULT_PAGE_SIZE : Nat := 25

/-- The controller-side state touched by the response path of ziti_ctrl.c:
base URL, cached instance id, presence of the optional redirect observer,
configured page size. -/
structure CtrlState where
  url : String
  instanceId : Option String
  redirectCbSet : Bool
  pageSize : Nat
deriving DecidableEq, Repr

/-- A default controller, as produced by ziti_ctrl_init. -/
def ctrl0 : CtrlState :=
  { url := "https://ctrl.example", instanceId := none, redirectCbSet := false,
    pageSize := DEFAULT_PAGE_SIZE }

/-- The ctrl_cb installed on a response context.  defaultCb stands for
ctrl_default_cb and for the wrappers that end by calling it
(ctrl_version_cb, ctrl_login_cb, ctrl_logout_cb, ctrl_service_cb).
enrollPem stands for enroll_pem_cb, installed by ctrl_enroll_http_cb when
an enrollment response arrives with content-type application/x-pem-file:
it fires the user callback directly and never reaches the rebind
handling of ctrl_default_cb. -/
inductive CtrlCbKind where
  | defaultCb
  | enrollPem
deriving DecidableEq, Repr

/-- Model of struct ctrl_resp (the response context).  Transient byte
buffers (body, received), timing fields and the user context pointer are
not modelled; the parse outcome of the accumulated body is carried by the
exchange events instead.  respCbSet models a non-NULL resp_cb,
hasBodyParse a non-NULL body_parse_func, and ctrlCb the installed
ctrl_cb. -/
structure Ctx (α : Type) where
  textPlain : Bool
  hasBodyParse : Bool
  paging : Bool
  limit : Nat
  recd : Nat
  acc : List α
  newAddress : Option String
  respCbSet : Bool
  ctrlCb : CtrlCbKind
deriving DecidableEq, Repr

/-- Pagination block of the response envelope (C ints). -/
structure RespPagination where
  limit : Int
  offset : Int
  total : Int
deriving DecidableEq, Repr

/-- The error object of a response envelope as parsed from JSON. -/
structure SrvError where
  code : Option String
  message : String
deriving DecidableEq, Repr

/-- Outcome of running the operation-specific body_parse_func on the
data field of the envelope. -/
inductive DataRes (α : Type) where
  | ok (items : List α)
  | bad
deriving DecidableEq, Repr

/-- Parse outcome of the accumulated response body: either parse_api_resp
failed, or it produced an envelope with pagination meta, an optional data
field and an optional error field. -/
inductive PageData (α : Type) where
  | parseFail (statusText : String)
  | envelope (pag : RespPagination) (data : Option (DataRes α)) (error : Option SrvError)
deriving DecidableEq, Repr

/-- The two optional response headers read by ctrl_resp_cb. -/
structure RespHeaders where
  ctrlAddress : Option String
  instanceId : Option String
deriving DecidableEq, Repr

def no_headers : RespHeaders := { ctrlAddress := none, instanceId := none }

/-- One HTTP exchange as observed by the response context:
transportFail is ctrl_resp_cb with r->code < 0 (no headers were received);
bodyFail is a body read error (len < 0, len not UV_EOF) after headers were
received; eof is a complete body (len == UV_EOF) with its parse outcome. -/
inductive Exchange (α : Type) where
  | transportFail (code : Int)
  | bodyFail (hdrs : RespHeaders) (code : Int)
  | eof (hdrs : RespHeaders) (status : Int) (rawBody : String) (pd : PageData α)
deriving DecidableEq, Repr

/-- Terminal-callback category: the four completion categories of a
response context. -/
inductive TermCat where
  | parsedSuccess
  | transportError
  | envelopeError
  | cancellation
deriving DecidableEq, Repr

/-- The ziti_error handed to the terminal callback.  For transport errors
the C code fills message from uv_strerror and, on cancellation in
ctrl_resp_cb, code from ziti_errorstr; those strings come from external
tables and are modelled as none. -/
structure DeliveredErr where
  err : ZitiErr
  code : Option String
  message : Option String
  httpCode : Option Int
deriving DecidableEq, Repr

/-- Payload handed to the terminal callback: a parsed object array or, for
plain-text responses, the raw body. -/
inductive Payload (α : Type) where
  | items (xs : List α)
  | raw (s : String)
deriving DecidableEq, Repr

/-- Observable events of the response path, in program order. -/
inductive Event (α : Type) where
  | reqIssued (offset : Nat) (limit : Nat)
  | terminalCb (cat : TermCat) (err : Option DeliveredErr) (payload : Option (Payload α))
  | adoptUrl (u : String)
  | notifyRedirect (u : String)
deriving DecidableEq, Repr

/-- Header handling of ctrl_resp_cb (success branch): capture a
ziti-ctrl-address header into the response context and update the cached
controller instance id when the ziti-instance-id header differs from it. -/
def apply_resp_headers (ctrl : CtrlState) (ctx : Ctx α) (h : RespHeaders) :
    CtrlState × Ctx α :=
  let ctx := match h.ctrlAddress with
    | some a => { ctx with newAddress := some a }
    | none => ctx
  let ctrl := match h.instanceId with
    | some iid => if ctrl.instanceId = some iid then ctrl else { ctrl with instanceId := some iid }
    | none => ctrl
  (ctrl, ctx)

/-- ctrl_default_cb: fire the terminal callback (when the user supplied
one), then, if the context holds a new controller address different from
the current URL, adopt it and notify the redirect observer when set. -/
def ctrl_default_cb (ctrl : CtrlState) (ctx : Ctx α) (cat : TermCat)
    (err : Option DeliveredErr) (payload : Option (Payload α)) :
    CtrlState × List (Event α) :=
  let cbEvents : List (Event α) :=
    if ctx.respCbSet then [Event.terminalCb cat err payload] else []
  match ctx.newAddress with
  | some a =>
    if a ≠ ctrl.url then
      ({ ctrl with url := a },
       cbEvents ++ [Event.adoptUrl a] ++
         (if ctrl.redirectCbSet then [Event.notifyRedirect a] else []))
    else
      (ctrl, cbEvents)
  | none => (ctrl, cbEvents)

/-- Result of processing one exchange: the context either completes (its
terminal chain ran and the context is freed) or, on a non-final page of a
paged operation, continues with the next page request issued. -/
inductive StepRes (α : Type) where
  | done (ctrl : CtrlState) (evs : List (Event α))
  | cont (ctrl : CtrlState) (ctx : Ctx α) (evs : List (Event α))
deriving DecidableEq, Repr

def step_events : StepRes α → List (Event α)
  | .done _ e => e
  | .cont _ _ e => e

/-- ctrl_paging_req: default the limit to the controller page size when
unset and issue the next page request at offset resp->recd. -/
def ctrl_paging_req (pageSize : Nat) (ctx : Ctx α) : Ctx α × Event α :=
  let limit := if ctx.limit = 0 then pageSize else ctx.limit
  ({ ctx with limit := limit }, Event.reqIssued ctx.recd limit)

/-- The tail of ctrl_body_cb shared by every completing path: attach the
HTTP status and the code_to_error translation to the envelope error if one
is present, then invoke resp->ctrl_cb.  With the default chain this runs
ctrl_default_cb (terminal callback, then rebind handling); with
enroll_pem_cb the user callback fires (when set) with the body wrapped as
the issued certificate and the function returns at once, so no rebind
handling runs and the controller state is untouched. -/
def finish_resp (ctrl : CtrlState) (ctx : Ctx α) (status : Int)
    (payload : Option (Payload α)) (srvErr : Option SrvError) : StepRes α :=
  let derr : Option DeliveredErr :=
    match srvErr with
    | some e => some { err := code_to_error e.code, code := e.code,
                       message := some e.message, httpCode := some status }
    | none => none
  let cat : TermCat := match derr with
    | some _ => .envelopeError
    | none => .parsedSuccess
  match ctx.ctrlCb with
  | .defaultCb =>
    let r := ctrl_default_cb ctrl ctx cat derr payload
    .done r.1 r.2
  | .enrollPem =>
    .done ctrl (if ctx.respCbSet then [Event.terminalCb cat derr payload] else [])

/-- The len == UV_EOF branch of ctrl_body_cb: plain-text passthrough,
envelope parse failure, data decoding, the paging accumulator, and the
terminal-callback chain, transcribed from the source. -/
def ctrl_body_eof (ctrl : CtrlState) (ctx : Ctx α) (status : Int)
    (rawBody : String) (pd : PageData α) : StepRes α :=
  if ctx.textPlain && decide (status < 300) then
    finish_resp ctrl ctx status (some (.raw rawBody)) none
  else
    match pd with
    | .parseFail statusText =>
      finish_resp ctrl ctx status none
        (some { code := some "INVALID_CONTROLLER_RESPONSE", message := statusText })
    | .envelope pag dataOpt errOpt =>
      match (if ctx.hasBodyParse then dataOpt else none) with
      | some .bad =>
        finish_resp ctrl ctx status none
          (some { code := some "INVALID_CONTROLLER_RESPONSE", message := "unexpected response JSON" })
      | some (.ok items) =>
        if ctx.paging then
          if decide (pag.total ≤ pag.offset + pag.limit) then
            finish_resp ctrl ctx status (some (.items (ctx.acc ++ items))) errOpt
          else
            let pr := ctrl_paging_req ctrl.pageSize
              { ctx with acc := ctx.acc ++ items, recd := ctx.recd + items.length }
            .cont ctrl pr.1 [pr.2]
        else
          finish_resp ctrl ctx status (some (.items items)) errOpt
      | none => finish_resp ctrl ctx status none errOpt

/-- Processing of one exchange by the response path of ziti_ctrl.c.
On transport failure ctrl_resp_cb synthesizes CONTROLLER_UNAVAILABLE, or
DISABLED on cancellation, and runs ctrl_default_cb.  On a body read error
ctrl_body_cb calls resp_cb directly, bypassing the rebind handling. -/
def ctrl_step (ctrl : CtrlState) (ctx : Ctx α) : Exchange α → StepRes α
  | .transportFail code =>
    let cancelled := code == UV_ECANCELED
    let derr : DeliveredErr :=
      { err := if cancelled then .DISABLED else .CONTROLLER_UNAVAILABLE,
        code := if cancelled then none else some "CONTROLLER_UNAVAILABLE",
        message := none, httpCode := none }
    let cat : TermCat := if cancelled then .cancellation else .transportError
    let r := ctrl_default_cb ctrl ctx cat (some derr) none
    .done r.1 r.2
  | .bodyFail h code =>
    let p := apply_resp_headers ctrl ctx h
    let cancelled := code == UV_ECANCELED
    let derr : DeliveredErr :=
      { err := if cancelled then .DISABLED else .CONTROLLER_UNAVAILABLE,
        code := some (if cancelled then "CONTEXT_DISABLED" else "CONTROLLER_UNAVAILABLE"),
        message := none, httpCode := none }
    let cat : TermCat := if cancelled then .cancellation else .transportError
    .done p.1 [Event.terminalCb cat (some derr) none]
  | .eof h status rawBody pd =>
    let p := apply_resp_headers ctrl ctx h
    ctrl_body_eof p.1 p.2 status rawBody pd

/-- Drive one response context over the exact sequence of HTTP exchanges
it observes.  The run completes (some) when the final exchange terminates
the context and no exchange is left over; otherwise the context would
still be in flight (none). -/
def ctrl_run (ctrl : CtrlState) (ctx : Ctx α) : List (Exchange α) → Option (CtrlState × List (Event α))
  | [] => none
  | ex :: rest =>
    match ctrl_step ctrl ctx ex with
    | .done c evs =>
      match rest with
      | [] => some (c, evs)
      | _ :: _ => none
    | .cont c ctx2 evs =>
      match ctrl_run c ctx2 rest with
      | some (c2, evs2) => some (c2, evs ++ evs2)
      | none => none

def isTerminalEv : Event α → Bool
  | .terminalCb _ _ _ => true
  | _ => false

/-- Number of terminal-callback events in a trace. -/
def terminalCount (evs : List (Event α)) : Nat := (evs.filter isTerminalEv).length

/-- The error kinds delivered by terminal callbacks of a trace. -/
def term_err_kinds (evs : List (Event α)) : List ZitiErr :=
  evs.filterMap fun e =>
    match e with
    | .terminalCb _ (some d) _ => some d.err
    | _ => none

/-- The payloads delivered by terminal callbacks of a trace. -/
def delivered_payloads (evs : List (Event α)) : List (Option (Payload α)) :=
  evs.filterMap fun e =>
    match e with
    | .terminalCb _ _ p => some p
    | _ => none

/-- The offsets of the page requests issued in a trace. -/
def req_offsets (evs : List (Event α)) : List Nat :=
  evs.filterMap fun e =>
    match e with
    | .reqIssued o _ => some o
    | _ => none

/-- The limits of the page requests issued in a trace. -/
def req_limits (evs : List (Event α)) : List Nat :=
  evs.filterMap fun e =>
    match e with
    | .reqIssued _ l => some l
    | _ => none

/-- Cancellation (ziti_ctrl_cancel → tlsuv_http_cancel_all) delivers
UV_ECANCELED to every in-flight response context. -/
def cancel_all_events (ctrl : CtrlState) (ctxs : List (Ctx α)) : List (List (Event α)) :=
  ctxs.map fun ctx => step_events (ctrl_step ctrl ctx (.transportFail UV_ECANCELED))

/-- The response context prepared by a paged operation such as
ziti_ctrl_get_services: paging set, JSON parser attached, nothing
accumulated yet, limit still unset. -/
def paging_ctx : Ctx α :=
  { textPlain := false, hasBodyParse := true, paging := true, limit := 0,
    recd := 0, acc := [], newAddress := none, respCbSet := true,
    ctrlCb := .defaultCb }

/-- One page response of a well-behaved paging server holding the fixed
element list: the page at a given offset carries the slice of at most
limit elements starting there, echoes limit and offset, and reports the
constant totalCount. -/
def page_exchange (elems : List α) (limit recd : Nat) : Exchange α :=
  .eof no_headers 200 ""
    (.envelope { limit := (limit : Int), offset := (recd : Int), total := (elems.length : Int) }
      (some (.ok ((elems.drop recd).take limit))) none)

/-- The page responses served to a paged walk starting at the given
offset.  The fuel argument bounds the number of pages; pages stop as soon
as totalCount does not exceed offset plus limit. -/
def server_pages_f (elems : List α) (limit : Nat) : Nat → Nat → List (Exchange α)
  | fuel, recd =>
    if elems.length ≤ recd + limit then [page_exchange elems limit recd]
    else
      match fuel with
      | 0 => [page_exchange elems limit recd]
      | fuel + 1 => page_exchange elems limit recd :: server_pages_f elems limit fuel (recd + limit)

def server_pages (elems : List α) (limit : Nat) (recd : Nat) : List (Exchange α) :=
  server_pages_f elems limit elems.length recd

/-- A full paged GET against the well-behaved server: the operation issues
the first request through ctrl_paging_req and then processes each page
response.  The returned trace starts with the initial request event. -/
def ziti_paged_get (pageSize : Nat) (elems : List α) : Option (CtrlState × List (Event α)) :=
  let ctrl : CtrlState := { ctrl0 with pageSize := pageSize }
  let start := ctrl_paging_req pageSize (paging_ctx (α := α))
  match ctrl_run ctrl start.1 (server_pages elems pageSize 0) with
  | some (c, evs) => some (c, start.2 :: evs)
  | none => none

def run_events : Option (CtrlState × List (Event α)) → List (Event α)
  | some (_, e) => e
  | none => []

/-- Modelled from the spec: the offsets of the follow-up page requests of
a paged operation of constant total T and limit L, starting after the page
at offset o.  A further page is requested exactly when T exceeds o + L,
and its offset is the number of elements received so far, o + L. -/
def spec_further_offsets_f (T L : Nat) : Nat → Nat → List Nat
  | fuel, o =>
    if T ≤ o + L then []
    else
      match fuel with
      | 0 => []
      | fuel + 1 => (o + L) :: spec_further_offsets_f T L fuel (o + L)

def spec_further_offsets (T L o : Nat) : List Nat :=
  spec_further_offsets_f T L T o

/-- model_map lookup: association list in insertion order. -/
def mm_get : List (String × β) → String → Option β
  | [], _ => none
  | (k, v) :: rest, key => if k = key then some v else mm_get rest key

/-- model_map set: replace the value in place when the key exists,
otherwise append. -/
def mm_set : List (String × β) → String → β → List (String × β)
  | [], key, v => [(key, v)]
  | (k, w) :: rest, key, v =>
    if k = key then (key, v) :: rest else (k, w) :: mm_set rest key v

/-- NO_TIMEOUTS from posture.c. -/
def NO_TIMEOUTS : Int := -1

/-- struct pr_info_s of posture.c: one cached posture response. -/
structure PrInfo where
  id : String
  obj : Option String
  should_send : Bool
  pending : Bool
  obsolete : Bool
deriving DecidableEq, Repr

/-- struct posture_checks of posture.c (the timer handle and the
background work map are not modelled). -/
structure PostureChecks where
  previous_api_session_id : Option String
  controller_instance_id : Option String
  must_send_every_time : Bool
  must_send : Bool
  responses : List (String × PrInfo)
  error_states : List (String × Bool)
deriving DecidableEq, Repr

/-- The posture-checks bundle allocated by ziti_posture_init (calloc zeroes
the maps; must_send_every_time starts true, must_send false). -/
def ziti_posture_init_pc : PostureChecks :=
  { previous_api_session_id := none, controller_instance_id := none,
    must_send_every_time := true, must_send := false,
    responses := [], error_states := [] }

structure ZitiProcess where
  path : String
deriving DecidableEq, Repr

/-- ziti_posture_query: type string, timeout, and the process data used by
PROCESS and PROCESS_MULTI checks. -/
structure ZitiPostureQuery where
  id : String
  query_type : String
  timeout : Int
  process : Option ZitiProcess
  processes : List ZitiProcess
deriving DecidableEq, Repr

structure ZitiPostureQuerySet where
  policy_id : String
  posture_queries : List ZitiPostureQuery
deriving DecidableEq, Repr

structure ZitiService where
  name : String
  posture_query_map : List (String × ZitiPostureQuerySet)
deriving DecidableEq, Repr

/-- The required-probe set computed by the service walk of
ziti_send_posture_data: one domain, OS and MAC slot (last writer wins) and
a map keyed by process path (first writer wins). -/
structure RequiredQueries where
  domainQ : Option ZitiPostureQuery
  osQ : Option ZitiPostureQuery
  macQ : Option ZitiPostureQuery
  procs : List (String × ZitiPostureQuery)
deriving DecidableEq, Repr

/-- The service walk of ziti_send_posture_data, lines 238-292: visit every
query of every posture-query set of every service and build the
required-probe set.  The branch order follows the source: MAC, DOMAIN, OS,
PROCESS, PROCESS_MULTI; other query types are ignored by the walk. -/
def posture_required_queries (services : List ZitiService) : RequiredQueries :=
  services.foldl
    (fun req svc =>
      svc.posture_query_map.foldl
        (fun req entry =>
          entry.2.posture_queries.foldl
            (fun req q =>
              if q.query_type = PC_MAC_TYPE then { req with macQ := some q }
              else if q.query_type = PC_DOMAIN_TYPE then { req with domainQ := some q }
              else if q.query_type = PC_OS_TYPE then { req with osQ := some q }
              else if q.query_type = PC_PROCESS_TYPE then
                match q.process with
                | some p =>
                  if mm_get req.procs p.path = none then
                    { req with procs := mm_set req.procs p.path q }
                  else req
                | none => req
              else if q.query_type = PC_PROCESS_MULTI_TYPE then
                q.processes.foldl
                  (fun req p =>
                    if mm_get req.procs p.path = none then
                      { req with procs := mm_set req.procs p.path q }
                    else req)
                  req
              else req)
            req)
        req)
    { domainQ := none, osQ := none, macQ := none, procs := [] }

/-- The new_controller_instance test of ziti_send_posture_data line 199:
pc-cached id NULL and controller id non-NULL, or strcmp differs.  The C
expression calls strcmp with a NULL argument (undefined behaviour) when
the controller id is NULL; the theorems only use states where the
controller id is present. -/
def new_controller_instance_check (prev cur : Option String) : Bool :=
  match prev, cur with
  | none, some _ => true
  | some p, some c => p != c
  | none, none => false
  | some _, none => true

/-- Obsolete marking, lines 295-300: every cached response that is neither
pending nor flagged for sending is tentatively obsolete. -/
def mark_obsolete (rs : List (String × PrInfo)) : List (String × PrInfo) :=
  rs.map fun p =>
    if !p.2.pending && !p.2.should_send then (p.1, { p.2 with obsolete := true }) else p

/-- Obsolete removal, lines 380-390. -/
def remove_obsolete (rs : List (String × PrInfo)) : List (String × PrInfo) :=
  rs.filter fun p => !p.2.obsolete

/-- get_resp_info plus the per-probe bookkeeping repeated at lines
307-318, 326-337, 344-355 and 371-376: ensure a cache entry exists, clear
its obsolete flag and, when it is not pending, mark it pending and
dispatch the probe.  Returns the updated state and whether the probe was
dispatched. -/
def touch_resp (pc : PostureChecks) (key : String) : PostureChecks × Bool :=
  let info := match mm_get pc.responses key with
    | some i => i
    | none => { id := key, obj := none, should_send := false, pending := false, obsolete := false }
  let info := { info with obsolete := false }
  if info.pending then
    ({ pc with responses := mm_set pc.responses key info }, false)
  else
    ({ pc with responses := mm_set pc.responses key { info with pending := true } }, true)

/-- One of the three scalar-probe branches of ziti_send_posture_data
(domain, MAC, OS): when the query is required, clear must_send_every_time
if it declares timeout == -1, then touch its cache entry.  Returns the
dispatched keys. -/
def handle_required_query (pc : PostureChecks) (q : Option ZitiPostureQuery) (key : String) :
    PostureChecks × List String :=
  match q with
  | none => (pc, [])
  | some q =>
    let pc := if q.timeout = NO_TIMEOUTS then { pc with must_send_every_time := false } else pc
    let t := touch_resp pc key
    (t.1, if t.2 then [key] else [])

/-- The process-probe loop of ziti_send_posture_data, lines 358-378,
visiting the required process map in insertion order. -/
def handle_process_queries (pc : PostureChecks) :
    List (String × ZitiPostureQuery) → PostureChecks × List String
  | [] => (pc, [])
  | p :: rest =>
    let pc := if p.2.timeout = NO_TIMEOUTS then { pc with must_send_every_time := false } else pc
    let t := touch_resp pc p.1
    let r := handle_process_queries t.1 rest
    (r.1, (if t.2 then [p.1] else []) ++ r.2)

/-- External inputs of one posture tick. -/
structure TickInput where
  apiSessionId : Option String
  fullyAuthenticated : Bool
  ctrlInstanceId : Option String
  services : List ZitiService
deriving DecidableEq, Repr

/-- The must_send decision of ziti_send_posture_data, lines 196-223: set
must_send when the API session id changed, the send-every-time flag is
set, or the controller instance id changed, remembering the current ids in
that case; otherwise clear must_send. -/
def posture_tick_prelude (pc : PostureChecks) (sid : String) (ctrlIid : Option String) :
    PostureChecks :=
  let new_session_id : Bool :=
    match pc.previous_api_session_id with
    | none => true
    | some p => p != sid
  let new_controller_instance :=
    new_controller_instance_check pc.controller_instance_id ctrlIid
  if new_session_id || pc.must_send_every_time || new_controller_instance then
    { pc with must_send := true,
              previous_api_session_id := some sid,
              controller_instance_id := ctrlIid }
  else
    { pc with must_send := false }

/-- The body of ziti_send_posture_data after its session guards:
must_send decision, required-probe walk, must_send_every_time updates,
obsolete handling and probe dispatch.  Returns the updated state and the
keys of the probes dispatched this tick, in dispatch order.  Probe replies
arrive through ziti_collect_pr. -/
def posture_tick_core (pc : PostureChecks) (sid : String) (ctrlIid : Option String)
    (services : List ZitiService) : PostureChecks × List String :=
  let pc1 := posture_tick_prelude pc sid ctrlIid
  let req := posture_required_queries services
  let pc2 := { pc1 with responses := mark_obsolete pc1.responses }
  let r1 := handle_required_query pc2 req.domainQ PC_DOMAIN_TYPE
  let r2 := handle_required_query r1.1 req.macQ PC_MAC_TYPE
  let r3 := handle_required_query r2.1 req.osQ PC_OS_TYPE
  let r4 := handle_process_queries r3.1 req.procs
  ({ r4.1 with responses := remove_obsolete r4.1.responses },
   r1.2 ++ r2.2 ++ r3.2 ++ r4.2)

/-- ziti_send_posture_data up to (but excluding) ziti_pr_send: skip when
there is no API session or it is only partially authenticated, otherwise
run the tick body. -/
def ziti_send_posture_data_model (pc : PostureChecks) (inp : TickInput) :
    PostureChecks × List String :=
  match inp.apiSessionId with
  | none => (pc, [])
  | some sid =>
    if !inp.fullyAuthenticated then (pc, [])
    else posture_tick_core pc sid inp.ctrlInstanceId inp.services

/-- ziti_pr_is_info_errored. -/
def ziti_pr_is_info_errored (pc : PostureChecks) (id : String) : Bool :=
  match mm_get pc.error_states id with
  | none => false
  | some b => b

def ziti_pr_set_info_errored (pc : PostureChecks) (id : String) : PostureChecks :=
  { pc with error_states := mm_set pc.error_states id true }

def ziti_pr_set_info_success (pc : PostureChecks) (id : String) : PostureChecks :=
  { pc with error_states := mm_set pc.error_states id false }

/-- The cache-entry update of ziti_collect_pr: clear pending, replace the
body when it changed, and set should_send from must_send_every_time, the
error state and the change flag. -/
def collect_update_info (msee errored : Bool) (info : PrInfo) (obj : String) : PrInfo :=
  let info := { info with pending := false }
  let changed : Bool :=
    match info.obj with
    | none => true
    | some o => o != obj
  let info := if changed then { info with obj := some obj } else info
  { info with should_send := msee || errored || changed }

/-- ziti_collect_pr on a live context: drop the reply when its cache entry
was removed; otherwise update the entry in place. -/
def ziti_collect_pr_pc (pc : PostureChecks) (key obj : String) : PostureChecks :=
  match mm_get pc.responses key with
  | none => pc
  | some info =>
    let info2 := collect_update_info pc.must_send_every_time (ziti_pr_is_info_errored pc key) info obj
    { pc with responses := mm_set pc.responses key info2 }

/-- ziti_collect_pr including the NULL posture_checks guard (a disabled
context drops the reply). -/
def ziti_collect_pr_model (pcOpt : Option PostureChecks) (key obj : String) :
    Option PostureChecks :=
  pcOpt.map fun pc => ziti_collect_pr_pc pc key obj

/-- The error-state bookkeeping of ziti_pr_post_cb (individual posture
submission callback): record the error state of the id; the service
refresh on success is outside this model. -/
def ziti_pr_post_cb_model (pc : PostureChecks) (id : String) (isError : Bool) : PostureChecks :=
  if isError then ziti_pr_set_info_errored pc id else ziti_pr_set_info_success pc id

/-- ziti_pr_post_bulk_cb: on error set must_send true (and remember a 404
as the bulk endpoint being unavailable); on success set must_send false.
Returns the updated state and the no_bulk_posture_response_api flag. -/
def ziti_pr_post_bulk_cb_model (pc : PostureChecks) (noBulk : Bool) (errHttp : Option Int) :
    PostureChecks × Bool :=
  match errHttp with
  | some http => ({ pc with must_send := true }, noBulk || (http == 404))
  | none => ({ pc with must_send := false }, noBulk)

/-- ziti_pr_send_bulk: when no cached response is flagged should_send,
return without posting; otherwise post one bulk body made of every flagged
response (returned as id-body pairs in map order) and clear their flags. -/
def ziti_pr_send_bulk_model (pc : PostureChecks) :
    PostureChecks × Option (List (String × String)) :=
  let send := pc.responses.any fun p => p.2.should_send
  if !send then (pc, none)
  else
    let posted := pc.responses.filterMap fun p =>
      if p.2.should_send then some (p.1, p.2.obj.getD "") else none
    let responses := pc.responses.map fun p =>
      if p.2.should_send then (p.1, { p.2 with should_send := false }) else p
    ({ pc with responses := responses }, some posted)

/-- ziti_pr_send_individually: post each flagged response on its own and
clear its flag. -/
def ziti_pr_send_individually_model (pc : PostureChecks) :
    PostureChecks × List (String × String) :=
  ({ pc with responses := pc.responses.map fun p =>
       if p.2.should_send then (p.1, { p.2 with should_send := false }) else p },
   pc.responses.filterMap fun p =>
     if p.2.should_send then some (p.1, p.2.obj.getD "") else none)

/-- Whether an optional required query declares timeout == -1. -/
def opt_query_no_timeout : Option ZitiPostureQuery → Bool
  | some q => q.timeout == NO_TIMEOUTS
  | none => false

/-- Whether a required query declares timeout == -1, over the required set
of one tick (the selected domain, OS and MAC queries and every required
process query). -/
def required_query_declares_no_timeout (req : RequiredQueries) : Bool :=
  opt_query_no_timeout req.domainQ ||
  opt_query_no_timeout req.macQ ||
  opt_query_no_timeout req.osQ ||
  (req.procs.any fun p => p.2.timeout == NO_TIMEOUTS)

/-- Modelled from the spec words for claim C8: the send-every-time flag is
initialized to true at each tick and set to false exactly when at least
one required query declares timeout == -1, so its value at the end of a
tick would be the negation of that condition. -/
def spec_send_every_time_after_tick (services : List ZitiService) : Bool :=
  !(required_query_declares_no_timeout (posture_required_queries services))

/-- Inner query loop of ziti_service_has_query_with_timeout: scan the
posture queries of one set in order for one whose timeout differs from
NO_TIMEOUTS. -/
def set_has_query_with_timeout : List ZitiPostureQuery → Bool
  | [] => false
  | q :: rest =>
    if q.timeout != NO_TIMEOUTS then true else set_has_query_with_timeout rest

/-- ziti_service_has_query_with_timeout: walk the posture-query map of the
service, removing each visited entry from the map; return true as soon as
a set holds a query whose timeout differs from -1 (leaving that set and
the unvisited remainder in the map), else false with the map emptied. -/
def has_query_with_timeout_loop :
    List (String × ZitiPostureQuerySet) → Bool × List (String × ZitiPostureQuerySet)
  | [] => (false, [])
  | entry :: rest =>
    if set_has_query_with_timeout entry.2.posture_queries then (true, entry :: rest)
    else has_query_with_timeout_loop rest

def ziti_service_has_query_with_timeout (svc : ZitiService) : Bool × ZitiService :=
  let r := has_query_with_timeout_loop svc.posture_query_map
  (r.1, { svc with posture_query_map := r.2 })

/-- A plain non-paging JSON response context with a user callback. -/
def basic_ctx : Ctx Nat :=
  { textPlain := false, hasBodyParse := false, paging := false, limit := 0,
    recd := 0, acc := [], newAddress := none, respCbSet := true,
    ctrlCb := .defaultCb }

/-- The response context of ziti_ctrl_enroll after ctrl_enroll_http_cb has
seen a response with content-type application/x-pem-file: resp_text_plain
is set and ctrl_cb is switched to enroll_pem_cb. -/
def enroll_pem_ctx : Ctx Nat :=
  { textPlain := true, hasBodyParse := true, paging := false, limit := 0,
    recd := 0, acc := [], newAddress := none, respCbSet := true,
    ctrlCb := .enrollPem }

/-- A domain posture query with the given timeout. -/
def domain_query (t : Int) : ZitiPostureQuery :=
  { id := "q1", query_type := PC_DOMAIN_TYPE, timeout := t, process := none, processes := [] }

/-- A service requiring only the given domain query. -/
def domain_service (t : Int) : ZitiService :=
  { name := "svc1",
    posture_query_map := [("pol1", { policy_id := "pol1", posture_queries := [domain_query t] })] }

/-- Controller-restart scenario: the serialized domain probe body (its
JSON content is irrelevant, only string equality matters). -/
def c7_body : String := "domain-probe-body-v1"

/-- Controller-restart scenario: posture state after earlier successful
ticks — one cached, already delivered domain response, no error states,
must_send_every_time already false because the domain check declares
timeout -1, instance id A cached. -/
def c7_pc : PostureChecks :=
  { previous_api_session_id := some "s1", controller_instance_id := some "A",
    must_send_every_time := false, must_send := false,
    responses := [(PC_DOMAIN_TYPE,
      { id := PC_DOMAIN_TYPE, obj := some c7_body, should_send := false,
        pending := false, obsolete := false })],
    error_states := [] }

/-- Controller-restart scenario: the next tick observes instance id B. -/
def c7_input : TickInput :=
  { apiSessionId := some "s1", fullyAuthenticated := true,
    ctrlInstanceId := some "B", services := [domain_service NO_TIMEOUTS] }

def c7_tick : PostureChecks × List String := ziti_send_posture_data_model c7_pc c7_input

/-- Controller-restart scenario: the dispatched probes reply with the very
same bodies as before. -/
def c7_collected : PostureChecks :=
  c7_tick.2.foldl (fun s k => ziti_collect_pr_pc s k c7_body) c7_tick.1

def c7_send : PostureChecks × Option (List (String × String)) :=
  ziti_pr_send_bulk_model c7_collected

/-- C8 scenario: fresh posture state, first tick sees a domain check with
timeout -1, second tick sees a domain check with timeout 30. -/
def c8_inp1 : TickInput :=
  { apiSessionId := some "s1", fullyAuthenticated := true,
    ctrlInstanceId := some "A", services := [domain_service NO_TIMEOUTS] }

def c8_inp2 : TickInput :=
  { apiSessionId := some "s1", fullyAuthenticated := true,
    ctrlInstanceId := some "A", services := [domain_service 30] }

def c8_pc2 : PostureChecks :=
  (ziti_send_posture_data_model
    (ziti_send_posture_data_model ziti_posture_init_pc c8_inp1).1 c8_inp2).1

/-- C9 scenario: an OS posture response flagged for sending, submitted
individually; the submission errors. -/
def c9_pc0 : PostureChecks :=
  { previous_api_session_id := some "s1", controller_instance_id := some "A",
    must_send_every_time := false, must_send := false,
    responses := [(PC_OS_TYPE,
      { id := PC_OS_TYPE, obj := some "os-probe-body-v1", should_send := true,
        pending := false, obsolete := false })],
    error_states := [] }

def c9_sent : PostureChecks × List (String × String) :=
  ziti_pr_send_individually_model c9_pc0

/-- C9 scenario: the state at the start of the next tick, after the error
callback of the submission ran. -/
def c9_next_tick_start : PostureChecks :=
  ziti_pr_post_cb_model c9_sent.1 PC_OS_TYPE true

/-- C9 witness scenario: an errored OS entry whose probe is pending and
whose body will come back unchanged. -/
def c9_witness_info : PrInfo :=
  { id := PC_OS_TYPE, obj := some "os-probe-body-v1", should_send := false,
    pending := true, obsolete := false }

def c9_witness_pc : PostureChecks :=
  { previous_api_session_id := some "s1", controller_instance_id := some "A",
    must_send_every_time := false, must_send := false,
    responses := [(PC_OS_TYPE, c9_witness_info)],
    error_states := [(PC_OS_TYPE, true)] }


/-- C3: the server error-code mapping is a total deterministic function
over code strings; each of the fourteen declared keys maps to its declared
internal kind, a null or absent code maps to OK, and every other string
maps to the unspecified kind (ZITI_WTF). -/
theorem code_to_error_table :
    (code_to_error (some "NOT_FOUND") = .NOT_FOUND ∧
     code_to_error (some "CONTROLLER_UNAVAILABLE") = .CONTROLLER_UNAVAILABLE ∧
     code_to_error (some "NO_ROUTABLE_INGRESS_NODES") = .GATEWAY_UNAVAILABLE ∧
     code_to_error (some "NO_EDGE_ROUTERS_AVAILABLE") = .GATEWAY_UNAVAILABLE ∧
     code_to_error (some "INVALID_AUTHENTICATION") = .AUTHENTICATION_FAILED ∧
     code_to_error (some "REQUIRES_CERT_AUTH") = .AUTHENTICATION_FAILED ∧
     code_to_error (some "UNAUTHORIZED") = .AUTHENTICATION_FAILED ∧
     code_to_error (some "INVALID_AUTH") = .AUTHENTICATION_FAILED ∧
     code_to_error (some "INVALID_POSTURE") = .INVALID_POSTURE ∧
     code_to_error (some "MFA_INVALID_TOKEN") = .MFA_INVALID_TOKEN ∧
     code_to_error (some "MFA_EXISTS") = .MFA_EXISTS ∧
     code_to_error (some "MFA_NOT_ENROLLED") = .MFA_NOT_ENROLLED ∧
     code_to_error (some "INVALID_ENROLLMENT_TOKEN") = .JWT_INVALID ∧
     code_to_error (some "COULD_NOT_VALIDATE") = .NOT_AUTHORIZED) ∧
    code_to_error none = .OK ∧
    ∀ s : String, s ∉ ctrl_error_codes → code_to_error (some s) = .WTF := by
  refine ⟨by decide, by decide, ?_⟩
  intro s hs
  simp only [ctrl_error_codes, List.mem_cons, List.not_mem_nil, or_false, not_or] at hs
  obtain ⟨h1, h2, h3, h4, h5, h6, h7, h8, h9, h10, h11, h12, h13, h14⟩ := hs
  simp [code_to_error, h1, h2, h3, h4, h5, h6, h7, h8, h9, h10, h11, h12, h13, h14]

/-- Witness for code_to_error_table at the undeclared code BOGUS_CODE. -/
theorem code_to_error_table_witness :
    ("BOGUS_CODE" : String) ∉ ctrl_error_codes ∧ code_to_error (some "BOGUS_CODE") = .WTF :=
  ⟨by decide, code_to_error_table.2.2 "BOGUS_CODE" (by decide)⟩

/-- C2 counterexample: at the concrete input current-identity with no
token, the synthetic error message is the full source string, which is not
the shorter message stated by the claim. -/
theorem no_session_message_counterexample :
    ctrl_invoke none .current_identity =
      .syncError .AUTHENTICATION_FAILED "UNAUTHORIZED"
        "no api session token set for ziti_controller" ∧
    ctrl_invoke none .current_identity ≠
      .syncError .AUTHENTICATION_FAILED "UNAUTHORIZED" "no api session token set" :=
  ⟨rfl, by decide⟩

/-- C2 (amended): every controller operation other than version, login,
enroll and well-known-certs, invoked with the API session token absent,
synchronously fires its callback exactly once with an AUTH_FAILED error
carrying the code UNAUTHORIZED and the message "no api session token set
for ziti_controller", and issues no HTTP request. -/
theorem no_session_sync_auth_failed (op : CtrlOp) (h : pre_session_op op = false) :
    ctrl_invoke none op =
      .syncError .AUTHENTICATION_FAILED ERROR_CODE_UNAUTHORIZED ERROR_MSG_NO_API_SESSION_TOKEN := by
  cases op <;> simp_all [ctrl_invoke, verify_api_session, pre_session_op]

/-- Witness for no_session_sync_auth_failed at the logout operation. -/
theorem no_session_sync_auth_failed_witness :
    pre_session_op .logout = false ∧
    ctrl_invoke none .logout =
      .syncError .AUTHENTICATION_FAILED ERROR_CODE_UNAUTHORIZED ERROR_MSG_NO_API_SESSION_TOKEN :=
  ⟨by decide, no_session_sync_auth_failed .logout (by decide)⟩

theorem hqwt_loop_spec (m : List (String × ZitiPostureQuerySet)) :
    (has_query_with_timeout_loop m).1 =
      (m.any fun p => set_has_query_with_timeout p.2.posture_queries) ∧
    (has_query_with_timeout_loop m).2 =
      m.dropWhile (fun p => !set_has_query_with_timeout p.2.posture_queries) := by
  induction m with
  | nil => simp [has_query_with_timeout_loop]
  | cons a rest ih =>
    cases h : set_has_query_with_timeout a.2.posture_queries <;>
      simp [has_query_with_timeout_loop, h, List.dropWhile_cons, ih.1, ih.2]

/-- C10: ziti_service_has_query_with_timeout removes each inspected
posture-query-set entry from the posture_query_map of the service: the
result is true exactly when some set holds a query with timeout different
from -1; the map that remains is the original map with every set before
the first such set removed (so the reported set itself is kept); and when
the result is false the map is left empty. -/
theorem service_query_map_drained (svc : ZitiService) :
    (ziti_service_has_query_with_timeout svc).1 =
      (svc.posture_query_map.any fun p => set_has_query_with_timeout p.2.posture_queries) ∧
    (ziti_service_has_query_with_timeout svc).2.posture_query_map =
      svc.posture_query_map.dropWhile (fun p => !set_has_query_with_timeout p.2.posture_queries) ∧
    ((ziti_service_has_query_with_timeout svc).1 = false →
      (ziti_service_has_query_with_timeout svc).2.posture_query_map = []) := by
  have h := hqwt_loop_spec svc.posture_query_map
  refine ⟨by simpa [ziti_service_has_query_with_timeout] using h.1,
          by simpa [ziti_service_has_query_with_timeout] using h.2, ?_⟩
  intro hfalse
  have hany : (svc.posture_query_map.any fun p => set_has_query_with_timeout p.2.posture_queries) = false := by
    rw [← hqwt_loop_spec svc.posture_query_map |>.1]
    simpa [ziti_service_has_query_with_timeout] using hfalse
  have hall := List.any_eq_false.mp hany
  have : (ziti_service_has_query_with_timeout svc).2.posture_query_map =
      svc.posture_query_map.dropWhile (fun p => !set_has_query_with_timeout p.2.posture_queries) := by
    simpa [ziti_service_has_query_with_timeout] using h.2
  rw [this, List.dropWhile_eq_nil_iff]
  intro x hx
  simpa using hall x hx

/-- Witness for service_query_map_drained: a service whose first set has
only timeout -1 queries and whose second set has a timeout 30 query. -/
theorem service_query_map_drained_witness :
    (ziti_service_has_query_with_timeout
        { name := "svcW",
          posture_query_map :=
            [("polA", { policy_id := "polA", posture_queries := [domain_query NO_TIMEOUTS] }),
             ("polB", { policy_id := "polB", posture_queries := [domain_query 30] })] }).1 =
      (([("polA", ({ policy_id := "polA", posture_queries := [domain_query NO_TIMEOUTS] } : ZitiPostureQuerySet)),
         ("polB", ({ policy_id := "polB", posture_queries := [domain_query 30] } : ZitiPostureQuerySet))] :
           List (String × ZitiPostureQuerySet)).any
        fun p => set_has_query_with_timeout p.2.posture_queries) ∧
    (ziti_service_has_query_with_timeout
        { name := "svcW",
          posture_query_map :=
            [("polA", { policy_id := "polA", posture_queries := [domain_query NO_TIMEOUTS] }),
             ("polB", { policy_id := "polB", posture_queries := [domain_query 30] })] }).2.posture_query_map =
      ([("polA", ({ policy_id := "polA", posture_queries := [domain_query NO_TIMEOUTS] } : ZitiPostureQuerySet)),
        ("polB", ({ policy_id := "polB", posture_queries := [domain_query 30] } : ZitiPostureQuerySet))] :
          List (String × ZitiPostureQuerySet)).dropWhile
        (fun p => !set_has_query_with_timeout p.2.posture_queries) ∧
    ((ziti_service_has_query_with_timeout
        { name := "svcW",
          posture_query_map :=
            [("polA", { policy_id := "polA", posture_queries := [domain_query NO_TIMEOUTS] }),
             ("polB", { policy_id := "polB", posture_queries := [domain_query 30] })] }).1 = false →
      (ziti_service_has_query_with_timeout
        { name := "svcW",
          posture_query_map :=
            [("polA", { policy_id := "polA", posture_queries := [domain_query NO_TIMEOUTS] }),
             ("polB", { policy_id := "polB", posture_queries := [domain_query 30] })] }).2.posture_query_map = []) :=
  service_query_map_drained _

/-- C7 (evaluation at the failing input): the controller instance id
changed from A to B between ticks, so the next tick sets must_send to
true, yet the cached domain probe body, unchanged, is not re-sent: the
bulk send posts nothing, because should_send is computed from
must_send_every_time, the error state and the change flag only, and
must_send is never consulted by any send path. -/
theorem controller_restart_no_resend :
    new_controller_instance_check c7_pc.controller_instance_id c7_input.ctrlInstanceId = true ∧
    c7_tick.1.must_send = true ∧
    (mm_get c7_collected.responses PC_DOMAIN_TYPE).map PrInfo.obj = some (some c7_body) ∧
    c7_send.2 = none := by decide

theorem touch_resp_msee (pc : PostureChecks) (key : String) :
    (touch_resp pc key).1.must_send_every_time = pc.must_send_every_time := by
  simp only [touch_resp]
  split <;> rfl

theorem handle_required_query_msee (pc : PostureChecks) (q : Option ZitiPostureQuery) (key : String) :
    (handle_required_query pc q key).1.must_send_every_time =
      if opt_query_no_timeout q then false else pc.must_send_every_time := by
  cases q with
  | none => simp [handle_required_query, opt_query_no_timeout]
  | some q =>
    by_cases h : q.timeout = NO_TIMEOUTS <;>
      simp [handle_required_query, opt_query_no_timeout, h, touch_resp_msee]

theorem handle_process_queries_msee (procs : List (String × ZitiPostureQuery)) :
    ∀ pc : PostureChecks,
      (handle_process_queries pc procs).1.must_send_every_time =
        if (procs.any fun p => p.2.timeout == NO_TIMEOUTS) then false
        else pc.must_send_every_time := by
  induction procs with
  | nil => intro pc; simp [handle_process_queries]
  | cons p rest ih =>
    intro pc
    by_cases h : p.2.timeout = NO_TIMEOUTS
    · simp [handle_process_queries, h, ih, touch_resp_msee, beq_iff_eq]
    · have hb : (p.2.timeout == NO_TIMEOUTS) = false := by simp [beq_iff_eq, h]
      simp [handle_process_queries, h, hb, ih, touch_resp_msee]

theorem posture_tick_prelude_msee (pc : PostureChecks) (sid : String) (ctrlIid : Option String) :
    (posture_tick_prelude pc sid ctrlIid).must_send_every_time = pc.must_send_every_time := by
  simp only [posture_tick_prelude]
  split <;> rfl

theorem ite_false_chain (a b c d x : Bool) :
    (if d then false else if c then false else if b then false else if a then false else x) =
    (if a || b || c || d then false else x) := by
  cases a <;> cases b <;> cases c <;> cases d <;> simp

/-- C8 (amended): the send-every-time flag is initialized to true once,
when the posture-checks bundle is created; at each tick it is set to false
when at least one query in that tick's required-probe set declares
timeout == -1, and otherwise it keeps its previous value (it is never
reset to true by a tick). -/
theorem send_every_time_update (pc : PostureChecks) (inp : TickInput) (sid iid : String)
    (hs : inp.apiSessionId = some sid) (ha : inp.fullyAuthenticated = true)
    (hi : inp.ctrlInstanceId = some iid) :
    ziti_posture_init_pc.must_send_every_time = true ∧
    (ziti_send_posture_data_model pc inp).1.must_send_every_time =
      (if required_query_declares_no_timeout (posture_required_queries inp.services) then false
       else pc.must_send_every_time) := by
  refine ⟨rfl, ?_⟩
  simp only [ziti_send_posture_data_model, hs, ha, Bool.not_true, ite_false]
  simp only [posture_tick_core, handle_process_queries_msee, handle_required_query_msee,
    posture_tick_prelude_msee, required_query_declares_no_timeout]
  exact ite_false_chain _ _ _ _ _

/-- C8 counterexample: after a tick whose domain check declares timeout -1
the flag is false; the next tick's required set declares no timeout -1,
so under the claim (flag re-initialized to true at each tick and set false
exactly when some required query declares -1) the flag would be true at
the end of that tick, but the code leaves it false. -/
theorem send_every_time_counterexample :
    c8_pc2.must_send_every_time = false ∧
    spec_send_every_time_after_tick c8_inp2.services = true := by decide

/-- Witness for send_every_time_update at the concrete second-tick input. -/
theorem send_every_time_update_witness :
    c8_inp2.apiSessionId = some "s1" ∧ c8_inp2.fullyAuthenticated = true ∧
    c8_inp2.ctrlInstanceId = some "A" ∧
    (ziti_posture_init_pc.must_send_every_time = true ∧
     (ziti_send_posture_data_model ziti_posture_init_pc c8_inp2).1.must_send_every_time =
       (if required_query_declares_no_timeout (posture_required_queries c8_inp2.services) then false
        else ziti_posture_init_pc.must_send_every_time)) :=
  ⟨rfl, rfl, rfl, send_every_time_update ziti_posture_init_pc c8_inp2 "s1" "A" rfl rfl rfl⟩

theorem mm_get_set_self (m : List (String × β)) (k : String) (v : β) :
    mm_get (mm_set m k v) k = some v := by
  induction m with
  | nil => simp [mm_set, mm_get]
  | cons a rest ih =>
    obtain ⟨k1, w⟩ := a
    by_cases h : k1 = k <;> simp [mm_set, mm_get, h, ih]

theorem send_select_posts (m : List (String × PrInfo)) (key : String) (i : PrInfo)
    (hget : mm_get m key = some i) (hsend : i.should_send = true) :
    (key, i.obj.getD "") ∈
      m.filterMap (fun p => if p.2.should_send then some (p.1, p.2.obj.getD "") else none) := by
  induction m with
  | nil => simp [mm_get] at hget
  | cons a rest ih =>
    obtain ⟨k1, w⟩ := a
    rw [mm_get] at hget
    by_cases h : k1 = key
    · rw [if_pos h] at hget
      obtain rfl : w = i := Option.some.inj hget
      subst h
      simp [List.filterMap_cons, hsend]
    · rw [if_neg h] at hget
      have hm := ih hget
      cases hw : w.should_send <;> simp [List.filterMap_cons, hw, hm]

theorem collect_update_info_should_send_of_errored (msee : Bool) (info : PrInfo) (obj : String) :
    (collect_update_info msee true info obj).should_send = true := by
  simp [collect_update_info]

theorem collect_update_info_obj (msee errored : Bool) (info : PrInfo) (obj : String) :
    (collect_update_info msee errored info obj).obj = some obj := by
  simp only [collect_update_info]
  rcases hobj : info.obj with _ | o
  · simp [hobj]
  · by_cases h : o = obj
    · simp [hobj, h]
    · simp [hobj, h, bne_iff_ne]

/-- C9 counterexample: the OS body is posted individually, the submission
errors, the error state is recorded — yet at the start of the next tick
should_send is false (it was cleared when the body was handed to the
transport and nothing re-sets it before the tick runs). -/
theorem errored_should_send_counterexample :
    c9_sent.2 = [(PC_OS_TYPE, "os-probe-body-v1")] ∧
    ziti_pr_is_info_errored c9_next_tick_start PC_OS_TYPE = true ∧
    (mm_get c9_next_tick_start.responses PC_OS_TYPE).map PrInfo.should_send = some false := by
  decide

/-- C9 (amended): a posture id whose last submission errored gets
should_send set to true when its probe reply is collected during the next
tick, regardless of whether the body changed, and the per-id send loop
then retransmits the body, so an unchanged body is retransmitted until a
submission succeeds. -/
theorem errored_id_resubmits (pc : PostureChecks) (key obj : String) (info : PrInfo)
    (hinfo : mm_get pc.responses key = some info)
    (herr : ziti_pr_is_info_errored pc key = true) :
    (mm_get (ziti_collect_pr_pc pc key obj).responses key).map PrInfo.should_send = some true ∧
    (key, obj) ∈ (ziti_pr_send_individually_model (ziti_collect_pr_pc pc key obj)).2 := by
  have hcoll : ziti_collect_pr_pc pc key obj =
      { pc with responses :=
          mm_set pc.responses key (collect_update_info pc.must_send_every_time true info obj) } := by
    rw [ziti_collect_pr_pc, hinfo, herr]
  constructor
  · rw [hcoll]
    simp [mm_get_set_self, collect_update_info_should_send_of_errored]
  · rw [hcoll]
    simp only [ziti_pr_send_individually_model]
    have hmem := send_select_posts
      (mm_set pc.responses key (collect_update_info pc.must_send_every_time true info obj)) key
      (collect_update_info pc.must_send_every_time true info obj)
      (mm_get_set_self _ _ _)
      (collect_update_info_should_send_of_errored _ _ _)
    rw [collect_update_info_obj] at hmem
    simpa using hmem

/-- Witness for errored_id_resubmits: an errored OS entry collecting an
unchanged body. -/
theorem errored_id_resubmits_witness :
    mm_get c9_witness_pc.responses PC_OS_TYPE = some c9_witness_info ∧
    ziti_pr_is_info_errored c9_witness_pc PC_OS_TYPE = true ∧
    ((mm_get (ziti_collect_pr_pc c9_witness_pc PC_OS_TYPE "os-probe-body-v1").responses
        PC_OS_TYPE).map PrInfo.should_send = some true ∧
     (PC_OS_TYPE, "os-probe-body-v1") ∈
       (ziti_pr_send_individually_model
         (ziti_collect_pr_pc c9_witness_pc PC_OS_TYPE "os-probe-body-v1")).2) :=
  ⟨by decide, by decide,
   errored_id_resubmits c9_witness_pc PC_OS_TYPE "os-probe-body-v1" c9_witness_info
     (by decide) (by decide)⟩

/-- C5 counterexample: a completed pem-enrollment response carrying a
ziti-ctrl-address header that differs from the current base URL (with a
redirect observer set) fires its terminal callback through enroll_pem_cb
and returns: the controller state is unchanged (no adoption) and the trace
holds no adoptUrl and no notifyRedirect event, refuting the claim's
"every completed response". -/
theorem rebind_pem_counterexample :
    ctrl_run { ctrl0 with redirectCbSet := true } enroll_pem_ctx
        [Exchange.eof { ctrlAddress := some "https://new.example", instanceId := none }
          200 "PEM-CERT-DATA" (.parseFail "200 OK")] =
      some ({ ctrl0 with redirectCbSet := true },
        [Event.terminalCb TermCat.parsedSuccess none (some (.raw "PEM-CERT-DATA"))]) ∧
    ("https://new.example" : String) ≠ ({ ctrl0 with redirectCbSet := true } : CtrlState).url := by
  refine ⟨by decide, by decide⟩

/-- C5 (amended): for every completed response whose terminal chain runs
ctrl_default_cb — every completion except a pem-enrollment completion,
whose enroll_pem_cb bypasses the rebind handling — when the response
context holds a ziti-ctrl-address value different from the current base
URL, the controller adopts that URL and notifies the redirect observer
(when one is set) strictly after the terminal callback event; when the
value equals the current URL nothing is adopted and the observer is not
notified. -/
theorem rebind_after_terminal (ctrl : CtrlState) (ctx : Ctx Nat) (a : String) (cat : TermCat)
    (err : Option DeliveredErr) (payload : Option (Payload Nat))
    (hcb : ctx.respCbSet = true) (hna : ctx.newAddress = some a) :
    (a ≠ ctrl.url →
      (ctrl_default_cb ctrl ctx cat err payload).1.url = a ∧
      (ctrl_default_cb ctrl ctx cat err payload).2 =
        Event.terminalCb cat err payload :: Event.adoptUrl a ::
          (if ctrl.redirectCbSet then [Event.notifyRedirect a] else [])) ∧
    (a = ctrl.url →
      (ctrl_default_cb ctrl ctx cat err payload).1 = ctrl ∧
      (ctrl_default_cb ctrl ctx cat err payload).2 = [Event.terminalCb cat err payload]) := by
  constructor
  · intro hne
    simp [ctrl_default_cb, hna, hcb, hne]
  · intro heq
    simp [ctrl_default_cb, hna, hcb, heq]

/-- Witness for rebind_after_terminal: new address differs from the
current URL and the observer is set. -/
theorem rebind_after_terminal_witness :
    ({ basic_ctx with newAddress := some "https://new.example" } : Ctx Nat).respCbSet = true ∧
    ({ basic_ctx with newAddress := some "https://new.example" } : Ctx Nat).newAddress =
      some "https://new.example" ∧
    (("https://new.example" : String) ≠
        ({ ctrl0 with redirectCbSet := true } : CtrlState).url →
      (ctrl_default_cb { ctrl0 with redirectCbSet := true }
          { basic_ctx with newAddress := some "https://new.example" }
          TermCat.parsedSuccess none none).1.url = "https://new.example" ∧
      (ctrl_default_cb { ctrl0 with redirectCbSet := true }
          { basic_ctx with newAddress := some "https://new.example" }
          TermCat.parsedSuccess none none).2 =
        Event.terminalCb TermCat.parsedSuccess none none :: Event.adoptUrl "https://new.example" ::
          (if ({ ctrl0 with redirectCbSet := true } : CtrlState).redirectCbSet then
            [Event.notifyRedirect "https://new.example"] else [])) ∧
    (("https://new.example" : String) =
        ({ ctrl0 with redirectCbSet := true } : CtrlState).url →
      (ctrl_default_cb { ctrl0 with redirectCbSet := true }
          { basic_ctx with newAddress := some "https://new.example" }
          TermCat.parsedSuccess none none).1 = { ctrl0 with redirectCbSet := true } ∧
      (ctrl_default_cb { ctrl0 with redirectCbSet := true }
          { basic_ctx with newAddress := some "https://new.example" }
          TermCat.parsedSuccess none none).2 =
        [Event.terminalCb TermCat.parsedSuccess none none]) :=
  ⟨by decide, by decide,
   (rebind_after_terminal { ctrl0 with redirectCbSet := true }
      { basic_ctx with newAddress := some "https://new.example" } "https://new.example"
      TermCat.parsedSuccess none none (by decide) (by decide)).1,
   (rebind_after_terminal { ctrl0 with redirectCbSet := true }
      { basic_ctx with newAddress := some "https://new.example" } "https://new.example"
      TermCat.parsedSuccess none none (by decide) (by decide)).2⟩

theorem term_err_kinds_default (ctrl : CtrlState) (ctx : Ctx α) (cat : TermCat)
    (derr : DeliveredErr) (payload : Option (Payload α)) (hcb : ctx.respCbSet = true) :
    term_err_kinds (ctrl_default_cb ctrl ctx cat (some derr) payload).2 = [derr.err] := by
  rcases hna : ctx.newAddress with _ | a
  · simp [ctrl_default_cb, hna, hcb, term_err_kinds]
  · by_cases hne : a ≠ ctrl.url
    · by_cases hrc : ctrl.redirectCbSet = true <;>
        simp [ctrl_default_cb, hna, hcb, hne, hrc, term_err_kinds, List.filterMap_append]
    · simp [ctrl_default_cb, hna, hcb, hne, term_err_kinds]

/-- C6: a transport-level failure of a controller request is delivered to
the terminal callback with kind CONTROLLER_UNAVAILABLE, except a cancelled
request, which is delivered with kind DISABLED — on both failure paths
(response failure and body read failure); and after cancel every still
in-flight context receives DISABLED. -/
theorem transport_failure_error_kinds (ctrl : CtrlState) (ctx : Ctx Nat) (h : RespHeaders)
    (code : Int) (ctxs : List (Ctx Nat))
    (hcb : ctx.respCbSet = true) (hneg : code < 0)
    (hall : ∀ cx ∈ ctxs, cx.respCbSet = true) :
    term_err_kinds (step_events (ctrl_step ctrl ctx (.transportFail code))) =
      [if code == UV_ECANCELED then ZitiErr.DISABLED else ZitiErr.CONTROLLER_UNAVAILABLE] ∧
    term_err_kinds (step_events (ctrl_step ctrl ctx (.bodyFail h code))) =
      [if code == UV_ECANCELED then ZitiErr.DISABLED else ZitiErr.CONTROLLER_UNAVAILABLE] ∧
    ∀ evs ∈ cancel_all_events ctrl ctxs, term_err_kinds evs = [ZitiErr.DISABLED] := by
  refine ⟨?_, ?_, ?_⟩
  · simp [ctrl_step, step_events, term_err_kinds_default, hcb]
  · simp [ctrl_step, step_events, term_err_kinds]
  · intro evs hevs
    obtain ⟨cx, hcx, rfl⟩ := List.mem_map.mp hevs
    simp [ctrl_step, step_events, term_err_kinds_default, hall cx hcx]

/-- Witness for transport_failure_error_kinds at code -104 (a connection
reset) with one in-flight context. -/
theorem transport_failure_error_kinds_witness :
    basic_ctx.respCbSet = true ∧ ((-104 : Int) < 0) ∧
    (∀ cx ∈ [basic_ctx], cx.respCbSet = true) ∧
    (term_err_kinds (step_events (ctrl_step ctrl0 basic_ctx (.transportFail (-104)))) =
      [if (-104 : Int) == UV_ECANCELED then ZitiErr.DISABLED else ZitiErr.CONTROLLER_UNAVAILABLE] ∧
     term_err_kinds (step_events (ctrl_step ctrl0 basic_ctx (.bodyFail no_headers (-104)))) =
      [if (-104 : Int) == UV_ECANCELED then ZitiErr.DISABLED else ZitiErr.CONTROLLER_UNAVAILABLE] ∧
     ∀ evs ∈ cancel_all_events ctrl0 [basic_ctx], term_err_kinds evs = [ZitiErr.DISABLED]) :=
  ⟨by decide, by decide, by decide,
   transport_failure_error_kinds ctrl0 basic_ctx no_headers (-104) [basic_ctx]
     (by decide) (by decide) (by decide)⟩

theorem terminalCount_default (ctrl : CtrlState) (ctx : Ctx α) (cat : TermCat)
    (err : Option DeliveredErr) (payload : Option (Payload α)) (hcb : ctx.respCbSet = true) :
    terminalCount (ctrl_default_cb ctrl ctx cat err payload).2 = 1 := by
  rcases hna : ctx.newAddress with _ | a
  · simp [ctrl_default_cb, hna, hcb, terminalCount, isTerminalEv]
  · by_cases hne : a ≠ ctrl.url
    · by_cases hrc : ctrl.redirectCbSet = true <;>
        simp [ctrl_default_cb, hna, hcb, hne, hrc, terminalCount, isTerminalEv, List.filter_append]
    · simp [ctrl_default_cb, hna, hcb, hne, terminalCount, isTerminalEv]

theorem finish_resp_done_terminalCount (ctrl : CtrlState) (ctx : Ctx α) (status : Int)
    (payload : Option (Payload α)) (srvErr : Option SrvError) (c : CtrlState)
    (evs : List (Event α)) (hcb : ctx.respCbSet = true)
    (h : finish_resp ctrl ctx status payload srvErr = .done c evs) :
    terminalCount evs = 1 := by
  cases hcc : ctx.ctrlCb with
  | defaultCb =>
    simp only [finish_resp, hcc, StepRes.done.injEq] at h
    obtain ⟨h1, h2⟩ := h
    subst h2
    exact terminalCount_default _ _ _ _ _ hcb
  | enrollPem =>
    simp only [finish_resp, hcc, hcb, if_true, StepRes.done.injEq] at h
    obtain ⟨h1, h2⟩ := h
    subst h2
    simp [terminalCount, isTerminalEv]

theorem finish_resp_ne_cont (ctrl : CtrlState) (ctx : Ctx α) (status : Int)
    (payload : Option (Payload α)) (srvErr : Option SrvError) (c : CtrlState) (ctx2 : Ctx α)
    (evs : List (Event α)) :
    finish_resp ctrl ctx status payload srvErr ≠ .cont c ctx2 evs := by
  cases hcc : ctx.ctrlCb <;> simp [finish_resp, hcc]

theorem apply_resp_headers_respCbSet (ctrl : CtrlState) (ctx : Ctx α) (h : RespHeaders) :
    (apply_resp_headers ctrl ctx h).2.respCbSet = ctx.respCbSet := by
  rcases h with ⟨_ | a, _ | i⟩ <;> simp [apply_resp_headers]

theorem ctrl_body_eof_done_terminalCount (ctrl : CtrlState) (ctx : Ctx α) (status : Int)
    (raw : String) (pd : PageData α) (c : CtrlState) (evs : List (Event α))
    (hcb : ctx.respCbSet = true)
    (h : ctrl_body_eof ctrl ctx status raw pd = .done c evs) :
    terminalCount evs = 1 := by
  unfold ctrl_body_eof at h
  split at h
  · exact finish_resp_done_terminalCount _ _ _ _ _ _ _ hcb h
  · split at h
    · exact finish_resp_done_terminalCount _ _ _ _ _ _ _ hcb h
    · split at h
      · exact finish_resp_done_terminalCount _ _ _ _ _ _ _ hcb h
      · split at h
        · split at h
          · exact finish_resp_done_terminalCount _ _ _ _ _ _ _ hcb h
          · simp at h
        · exact finish_resp_done_terminalCount _ _ _ _ _ _ _ hcb h
      · exact finish_resp_done_terminalCount _ _ _ _ _ _ _ hcb h

theorem ctrl_body_eof_cont_events (ctrl : CtrlState) (ctx : Ctx α) (status : Int)
    (raw : String) (pd : PageData α) (c : CtrlState) (ctx2 : Ctx α) (evs : List (Event α))
    (hcb : ctx.respCbSet = true)
    (h : ctrl_body_eof ctrl ctx status raw pd = .cont c ctx2 evs) :
    terminalCount evs = 0 ∧ ctx2.respCbSet = true := by
  unfold ctrl_body_eof at h
  split at h
  · exact absurd h (finish_resp_ne_cont _ _ _ _ _ _ _ _)
  · split at h
    · exact absurd h (finish_resp_ne_cont _ _ _ _ _ _ _ _)
    · split at h
      · exact absurd h (finish_resp_ne_cont _ _ _ _ _ _ _ _)
      · split at h
        · split at h
          · exact absurd h (finish_resp_ne_cont _ _ _ _ _ _ _ _)
          · simp only [StepRes.cont.injEq] at h
            obtain ⟨-, h2, h3⟩ := h
            subst h2 h3
            simp [ctrl_paging_req, terminalCount, isTerminalEv, hcb]
        · exact absurd h (finish_resp_ne_cont _ _ _ _ _ _ _ _)
      · exact absurd h (finish_resp_ne_cont _ _ _ _ _ _ _ _)

theorem ctrl_step_done_terminalCount (ctrl : CtrlState) (ctx : Ctx α) (ex : Exchange α)
    (c : CtrlState) (evs : List (Event α)) (hcb : ctx.respCbSet = true)
    (h : ctrl_step ctrl ctx ex = .done c evs) : terminalCount evs = 1 := by
  cases ex with
  | transportFail code =>
    simp only [ctrl_step, StepRes.done.injEq] at h
    obtain ⟨h1, h2⟩ := h
    subst h2
    exact terminalCount_default _ _ _ _ _ hcb
  | bodyFail hd code =>
    simp only [ctrl_step, StepRes.done.injEq] at h
    obtain ⟨h1, h2⟩ := h
    subst h2
    simp [terminalCount, isTerminalEv]
  | eof hd status raw pd =>
    simp only [ctrl_step] at h
    exact ctrl_body_eof_done_terminalCount _ _ _ _ _ _ _
      (by rw [apply_resp_headers_respCbSet]; exact hcb) h

theorem ctrl_step_cont_events (ctrl : CtrlState) (ctx : Ctx α) (ex : Exchange α)
    (c : CtrlState) (ctx2 : Ctx α) (evs : List (Event α)) (hcb : ctx.respCbSet = true)
    (h : ctrl_step ctrl ctx ex = .cont c ctx2 evs) :
    terminalCount evs = 0 ∧ ctx2.respCbSet = true := by
  cases ex with
  | transportFail code => simp only [ctrl_step] at h; exact absurd h (by simp)
  | bodyFail hd code => simp only [ctrl_step] at h; exact absurd h (by simp)
  | eof hd status raw pd =>
    simp only [ctrl_step] at h
    exact ctrl_body_eof_cont_events _ _ _ _ _ _ _ _
      (by rw [apply_resp_headers_respCbSet]; exact hcb) h

theorem terminalCount_append (a b : List (Event α)) :
    terminalCount (a ++ b) = terminalCount a + terminalCount b := by
  simp [terminalCount, List.filter_append]

/-- C1: for every response context driven to completion over the sequence
of HTTP exchanges it observes, exactly one terminal callback fires.  Each
terminal event carries exactly one TermCat, an enumeration whose only
constructors are parsed success, transport error, envelope error and
cancellation, so the single callback fires on exactly one of those four. -/
theorem response_one_terminal (exs : List (Exchange α)) :
    ∀ (ctrl : CtrlState) (ctx : Ctx α) (c : CtrlState) (evs : List (Event α)),
      ctx.respCbSet = true → ctrl_run ctrl ctx exs = some (c, evs) →
      terminalCount evs = 1 := by
  induction exs with
  | nil => intro ctrl ctx c evs hcb hrun; simp [ctrl_run] at hrun
  | cons ex rest ih =>
    intro ctrl ctx c evs hcb hrun
    rw [ctrl_run] at hrun
    cases hstep : ctrl_step ctrl ctx ex with
    | done c1 evs1 =>
      rw [hstep] at hrun
      cases rest with
      | nil =>
        simp only [Option.some.injEq, Prod.mk.injEq] at hrun
        obtain ⟨-, h2⟩ := hrun
        subst h2
        exact ctrl_step_done_terminalCount _ _ _ _ _ hcb hstep
      | cons e2 r2 => simp at hrun
    | cont c1 ctx1 evs1 =>
      rw [hstep] at hrun
      dsimp only at hrun
      cases hrec : ctrl_run c1 ctx1 rest with
      | none => rw [hrec] at hrun; simp at hrun
      | some p =>
        obtain ⟨c2, evs2⟩ := p
        rw [hrec] at hrun
        simp only [Option.some.injEq, Prod.mk.injEq] at hrun
        obtain ⟨-, h2⟩ := hrun
        subst h2
        obtain ⟨h0, hcb1⟩ := ctrl_step_cont_events _ _ _ _ _ _ hcb hstep
        rw [terminalCount_append, h0]
        simpa using ih c1 ctx1 c2 evs2 hcb1 hrec

/-- Witness for response_one_terminal: a single complete JSON response
with an empty envelope. -/
theorem response_one_terminal_witness :
    basic_ctx.respCbSet = true ∧
    ctrl_run ctrl0 basic_ctx
        [Exchange.eof no_headers 200 ""
          (.envelope { limit := 25, offset := 0, total := 0 } none none)] =
      some (ctrl0, [Event.terminalCb TermCat.parsedSuccess none none]) ∧
    terminalCount ([Event.terminalCb TermCat.parsedSuccess none none] : List (Event Nat)) = 1 :=
  ⟨by decide, by decide,
   response_one_terminal
     [Exchange.eof no_headers 200 ""
       (.envelope { limit := 25, offset := 0, total := 0 } none none)]
     ctrl0 basic_ctx ctrl0 [Event.terminalCb TermCat.parsedSuccess none none]
     (by decide) (by decide)⟩

theorem finish_success (ctrl : CtrlState) (ctx : Ctx α) (status : Int)
    (payload : Option (Payload α)) (hcb : ctx.respCbSet = true) (hna : ctx.newAddress = none) :
    finish_resp ctrl ctx status payload none =
      .done ctrl [Event.terminalCb .parsedSuccess none payload] := by
  simp only [finish_resp, ctrl_default_cb, hcb, hna, if_true]
  cases ctx.ctrlCb <;> rfl

theorem step_page (ctrl : CtrlState) (ctx : Ctx α) (pag : RespPagination) (items : List α)
    (status : Int)
    (htp : ctx.textPlain = false) (hbp : ctx.hasBodyParse = true) (hpag : ctx.paging = true) :
    ctrl_step ctrl ctx (.eof no_headers status "" (.envelope pag (some (.ok items)) none)) =
      if pag.total ≤ pag.offset + pag.limit then
        finish_resp ctrl ctx status (some (.items (ctx.acc ++ items))) none
      else
        .cont ctrl ((ctrl_paging_req ctrl.pageSize
            { ctx with acc := ctx.acc ++ items, recd := ctx.recd + items.length }).1)
          [(ctrl_paging_req ctrl.pageSize
            { ctx with acc := ctx.acc ++ items, recd := ctx.recd + items.length }).2] := by
  simp only [ctrl_step, apply_resp_headers, no_headers, ctrl_body_eof, htp, hbp, hpag,
    Bool.false_and, Bool.false_eq_true, if_false, if_true, decide_eq_true_eq]

theorem paging_last_page_run (elems : List α) (limit recd : Nat) (acc : List α)
    (hlast : elems.length ≤ recd + limit) :
    ctrl_run { ctrl0 with pageSize := limit }
        { (paging_ctx : Ctx α) with limit := limit, recd := recd, acc := acc }
        [page_exchange elems limit recd] =
      some ({ ctrl0 with pageSize := limit },
        [Event.terminalCb TermCat.parsedSuccess none
          (some (.items (acc ++ elems.drop recd)))]) := by
  have hInt : ((elems.length : Int)) ≤ (recd : Int) + (limit : Int) := by exact_mod_cast hlast
  have htake : (elems.drop recd).take limit = elems.drop recd :=
    List.take_of_length_le (by rw [List.length_drop]; omega)
  rw [ctrl_run, page_exchange, step_page _ _ _ _ _ rfl rfl rfl]
  dsimp only
  rw [if_pos hInt, finish_success _ _ _ _ rfl rfl]
  dsimp only
  rw [htake]

theorem paging_run_aux (elems : List α) (limit : Nat) (hl : 0 < limit) :
    ∀ (fuel recd : Nat) (acc : List α),
      elems.length ≤ recd + fuel * limit + limit →
      ctrl_run { ctrl0 with pageSize := limit }
          { (paging_ctx : Ctx α) with limit := limit, recd := recd, acc := acc }
          (server_pages_f elems limit fuel recd) =
        some ({ ctrl0 with pageSize := limit },
          (spec_further_offsets_f elems.length limit fuel recd).map
              (fun o => Event.reqIssued o limit) ++
            [Event.terminalCb TermCat.parsedSuccess none
              (some (.items (acc ++ elems.drop recd)))]) := by
  intro fuel
  induction fuel with
  | zero =>
    intro recd acc hfuel
    have hlast : elems.length ≤ recd + limit := by
      rw [Nat.zero_mul] at hfuel; omega
    rw [server_pages_f, if_pos hlast, spec_further_offsets_f, if_pos hlast]
    simp only [List.map_nil, List.nil_append]
    exact paging_last_page_run elems limit recd acc hlast
  | succ f ihf =>
    intro recd acc hfuel
    rw [server_pages_f, spec_further_offsets_f]
    by_cases hlast : elems.length ≤ recd + limit
    · rw [if_pos hlast, if_pos hlast]
      simp only [List.map_nil, List.nil_append]
      exact paging_last_page_run elems limit recd acc hlast
    · rw [if_neg hlast, if_neg hlast]
      have hIntn : ¬ ((elems.length : Int) ≤ (recd : Int) + (limit : Int)) := by
        push_cast
        omega
      have hpl : ((elems.drop recd).take limit).length = limit := by
        rw [List.length_take, List.length_drop]
        omega
      have hl0 : ¬ (limit = 0) := by omega
      rw [ctrl_run, page_exchange, step_page _ _ _ _ _ rfl rfl rfl]
      dsimp only
      rw [if_neg hIntn]
      simp only [ctrl_paging_req]
      rw [hpl, if_neg hl0]
      have hfuel2 : elems.length ≤ (recd + limit) + f * limit + limit := by
        rw [Nat.succ_mul] at hfuel; omega
      rw [ihf (recd + limit) (acc ++ (elems.drop recd).take limit) hfuel2]
      dsimp only
      have hjoin : (elems.drop recd).take limit ++ elems.drop (recd + limit) = elems.drop recd := by
        rw [← List.drop_drop, List.take_append_drop]
      simp only [List.append_assoc, hjoin, List.map_cons, List.cons_append, List.singleton_append,
        List.nil_append]

theorem ctrl_paging_req_start (pageSize : Nat) :
    ctrl_paging_req pageSize (paging_ctx : Ctx α) =
      ({ (paging_ctx : Ctx α) with limit := pageSize }, Event.reqIssued 0 pageSize) := by
  simp [ctrl_paging_req, paging_ctx]

theorem ziti_paged_get_eq (elems : List α) (pageSize : Nat) (hl : 0 < pageSize) :
    ziti_paged_get pageSize elems =
      some ({ ctrl0 with pageSize := pageSize },
        Event.reqIssued 0 pageSize ::
          ((spec_further_offsets_f elems.length pageSize elems.length 0).map
              (fun o => Event.reqIssued o pageSize) ++
            [Event.terminalCb TermCat.parsedSuccess none (some (.items elems))])) := by
  have h2 : elems.length ≤ elems.length * pageSize := by
    rcases pageSize with _ | k
    · exact absurd hl (by omega)
    · rw [Nat.mul_succ]; omega
  have H := paging_run_aux elems pageSize hl elems.length 0 [] (by omega)
  simp only [List.drop_zero, List.nil_append] at H
  unfold ziti_paged_get
  rw [ctrl_paging_req_start]
  dsimp only
  simp only [paging_ctx, server_pages] at H ⊢
  rw [H]

theorem trace_extract (os : List Nat) (limit : Nat) (t : TermCat) (e : Option DeliveredErr)
    (p : Option (Payload α)) :
    delivered_payloads ((os.map fun o => Event.reqIssued (α := α) o limit) ++
        [Event.terminalCb t e p]) = [p] ∧
    req_offsets ((os.map fun o => Event.reqIssued (α := α) o limit) ++
        [Event.terminalCb t e p]) = os ∧
    req_limits ((os.map fun o => Event.reqIssued (α := α) o limit) ++
        [Event.terminalCb t e p]) = List.replicate os.length limit := by
  induction os with
  | nil => simp [delivered_payloads, req_offsets, req_limits]
  | cons o rest ih =>
    obtain ⟨ih1, ih2, ih3⟩ := ih
    refine ⟨?_, ?_, ?_⟩
    · simpa [delivered_payloads, List.filterMap_cons] using ih1
    · simpa [req_offsets, List.filterMap_cons] using ih2
    · simpa [req_limits, List.filterMap_cons, List.replicate_succ] using ih3

/-- C4: against a server reporting a constant totalCount, a paged
operation delivers exactly the declared elements in page order; the
initial request uses offset 0 and every follow-up request uses offset
equal to the number of elements received so far, as given by
spec_further_offsets, which issues a further page exactly when totalCount
exceeds offset + limit; and every request uses the configured limit. -/
theorem paging_delivers_declared_total (elems : List Nat) (pageSize : Nat) (hl : 0 < pageSize) :
    (ziti_paged_get pageSize elems).isSome ∧
    delivered_payloads (run_events (ziti_paged_get pageSize elems)) =
      [some (.items elems)] ∧
    req_offsets (run_events (ziti_paged_get pageSize elems)) =
      0 :: spec_further_offsets elems.length pageSize 0 ∧
    req_limits (run_events (ziti_paged_get pageSize elems)) =
      List.replicate ((spec_further_offsets elems.length pageSize 0).length + 1) pageSize := by
  obtain ⟨h1, h2, h3⟩ :=
    trace_extract (α := Nat) (spec_further_offsets_f elems.length pageSize elems.length 0)
      pageSize TermCat.parsedSuccess none (some (.items elems))
  rw [ziti_paged_get_eq elems pageSize hl]
  unfold spec_further_offsets
  refine ⟨rfl, ?_, ?_, ?_⟩
  · simpa [run_events, delivered_payloads, List.filterMap_cons] using h1
  · simpa [run_events, req_offsets, List.filterMap_cons] using h2
  · simp only [run_events, req_limits, List.filterMap_cons] at h3 ⊢
    simp [h3, List.replicate_succ, req_limits]

/-- Witness for paging_delivers_declared_total: five elements walked with
limit 2 (pages of sizes 2, 2, 1). -/
theorem paging_delivers_declared_total_witness :
    0 < 2 ∧
    ((ziti_paged_get 2 [10, 20, 30, 40, 50]).isSome ∧
     delivered_payloads (run_events (ziti_paged_get 2 [10, 20, 30, 40, 50])) =
       [some (.items [10, 20, 30, 40, 50])] ∧
     req_offsets (run_events (ziti_paged_get 2 [10, 20, 30, 40, 50])) =
       0 :: spec_further_offsets ([10, 20, 30, 40, 50] : List Nat).length 2 0 ∧
     req_limits (run_events (ziti_paged_get 2 [10, 20, 30, 40, 50])) =
       List.replicate ((spec_further_offsets ([10, 20, 30, 40, 50] : List Nat).length 2 0).length + 1) 2) :=
  ⟨by decide, paging_delivers_declared_total [10, 20, 30, 40, 50] 2 (by decide)⟩
